import Mathlib

/-!
Verification development for the naija-news-hub crawling/extraction core.

Each Python function named in the claims is shallowly embedded as an
executable Lean definition, translated from the source under
`src/src/...`.  Machine reals (Python floats) are modelled as rationals,
Python `datetime` arithmetic as rational timestamps, Python dicts with
optional keys as structures of `Option` fields, and JSON metadata maps
as association lists without duplicate keys (Python dicts cannot hold a
duplicate key).  External library collaborators that are not part of
this repository (difflib's SequenceMatcher ratio, the injectable clock,
random jitter) are passed in as explicit arguments, mirroring the spec's
treatment of collaborators as interfaces.
-/

namespace NNH

/-- Lowercase one character, as Python lowercases the ASCII range of the
URL and title strings handled here. -/
def lowerChar (c : Char) : Char :=
  if 'A' ≤ c ∧ c ≤ 'Z' then Char.ofNat (c.toNat + 32) else c

/-- Lowercase a string (model of `str.lower()` on ASCII input). -/
def toLowerStr (s : String) : String :=
  String.mk (s.toList.map lowerChar)

/-- Does the first list occur at the very start of the second list? -/
def leadsWith : List Char → List Char → Bool
  | [], _ => true
  | _ :: _, [] => false
  | a :: as, b :: bs => a == b && leadsWith as bs

/-- Does `needle` occur contiguously anywhere inside `hay`?  Model of
Python's `needle in hay` on strings. -/
def hasSubL (needle : List Char) : List Char → Bool
  | [] => needle.isEmpty
  | b :: bs => leadsWith needle (b :: bs) || hasSubL needle bs

/-- String form of `hasSubL`. -/
def hasSub (needle hay : String) : Bool :=
  hasSubL needle.toList hay.toList

/-- Split a list at the first occurrence of `sep`, returning the parts
before and after it, or `none` when `sep` does not occur. -/
def splitFirst (sep : List Char) : List Char → Option (List Char × List Char)
  | [] => if sep.isEmpty then some ([], []) else none
  | b :: bs =>
    if leadsWith sep (b :: bs) then some ([], (b :: bs).drop sep.length)
    else match splitFirst sep bs with
      | some (pre, post) => some (b :: pre, post)
      | none => none

/-- Result of `urllib.parse.urlparse` restricted to the components the
URL-discovery code reads: scheme, netloc, path and query. -/
structure ParsedUrl where
  scheme : String
  netloc : String
  path : String
  query : String
deriving Repr, DecidableEq

/-- Model of `urllib.parse.urlparse` for the absolute `http(s)` URLs the
discovery engine handles: the scheme ends at `://`, the netloc runs to
the first `/`, `?` or `#`, the path to the first `?` or `#`, and the
query from `?` to `#`.  A string without `://` is all path (as urlparse
treats scheme-less input without a leading `//`). -/
def urlparse (u : String) : ParsedUrl :=
  let splitPathQuery : List Char → List Char × List Char := fun rest =>
    let noFrag := (rest.takeWhile (fun c => c ≠ '#'))
    let path := noFrag.takeWhile (fun c => c ≠ '?')
    let query := (noFrag.drop path.length).drop 1
    (path, query)
  match splitFirst "://".toList u.toList with
  | some (sch, rest) =>
    let netloc := rest.takeWhile (fun c => c ≠ '/' ∧ c ≠ '?' ∧ c ≠ '#')
    let (path, query) := splitPathQuery (rest.drop netloc.length)
    ⟨toLowerStr (String.mk sch), String.mk netloc, String.mk path, String.mk query⟩
  | none =>
    let (path, query) := splitPathQuery u.toList
    ⟨"", "", String.mk path, String.mk query⟩

/-- Regex token: a literal character or a single `\d` digit class. -/
inductive RTok
  | lit : Char → RTok
  | digit : RTok
deriving Repr, DecidableEq

/-- Match a token sequence at the start of a character list. -/
def rmatchAt : List RTok → List Char → Bool
  | [], _ => true
  | _ :: _, [] => false
  | RTok.lit c :: ts, x :: xs => x == c && rmatchAt ts xs
  | RTok.digit :: ts, x :: xs => x.isDigit && rmatchAt ts xs

/-- Does the token sequence match at any position (model of `re.search`
for patterns built only from literals and fixed digit runs)? -/
def rsearch (ts : List RTok) : List Char → Bool
  | [] => rmatchAt ts []
  | x :: xs => rmatchAt ts (x :: xs) || rsearch ts xs

/-- Token list for a literal fragment of a pattern. -/
def litToks (s : String) : List RTok := s.toList.map RTok.lit

/-- Token list for `\d{n}`. -/
def digToks (n : Nat) : List RTok := List.replicate n RTok.digit

/-- Search a token pattern inside a string. -/
def rsearchS (ts : List RTok) (s : String) : Bool := rsearch ts s.toList

/-- The date patterns of `is_valid_article_url`
(src/src/web_scraper/url_discovery.py lines 473-478). -/
def datePatterns : List (List RTok) :=
  [ litToks "/" ++ digToks 4 ++ litToks "/" ++ digToks 2 ++ litToks "/" ++ digToks 2 ++ litToks "/"
  , litToks "/" ++ digToks 4 ++ litToks "-" ++ digToks 2 ++ litToks "-" ++ digToks 2 ++ litToks "/"
  , litToks "/" ++ digToks 2 ++ litToks "-" ++ digToks 2 ++ litToks "-" ++ digToks 4 ++ litToks "/"
  , litToks "/" ++ digToks 2 ++ litToks "/" ++ digToks 2 ++ litToks "/" ++ digToks 4 ++ litToks "/" ]

/-- The exclusion patterns of `is_valid_article_url`
(url_discovery.py lines 454-458). -/
def excludedPatterns : List String :=
  [ "/wp-content/", "/wp-includes/", "/wp-admin/", "/feed/", "/comments/"
  , "/login/", "/register/", "/logout/", "/admin/", "/wp-json/"
  , ".xml", ".pdf", ".jpg", ".png", ".gif", ".css", ".js" ]

/-- The article-indicator path fragments of `is_valid_article_url`
(url_discovery.py lines 486-492). -/
def articleIndicators : List String :=
  [ "/article/", "/news/", "/story/", "/post/", "/read/"
  , "/opinion/", "/editorial/", "/feature/", "/analysis/"
  , "/politics/", "/business/", "/sports/", "/entertainment/"
  , "/lifestyle/", "/health/", "/technology/", "/science/"
  , "/education/", "/crime/", "/metro/", "/national/", "/world/" ]

/-- The non-article page path beginnings of the blueprint.ng branch
(url_discovery.py lines 506-510). -/
def nonArticlePages : List String :=
  [ "/about", "/contact", "/privacy", "/terms", "/sitemap", "/advertise"
  , "/category", "/tag", "/author", "/search", "/page", "/wp-login", "/wp-admin"
  , "/feed", "/comments", "/trackback", "/wp-content", "/wp-includes", "/wp-json" ]

/-- The pagination patterns of the blueprint.ng branch
(url_discovery.py lines 518-522); a search for `\d+` succeeds exactly
when a search for a single `\d` after the literal part succeeds. -/
def paginationPatterns : List (List RTok) :=
  [ litToks "/page/" ++ [RTok.digit]
  , litToks "?page=" ++ [RTok.digit]
  , litToks "&page=" ++ [RTok.digit] ]

/-- The query fragments that mark non-article pages in the blueprint.ng
branch (url_discovery.py line 530). -/
def nonArticleParams : List String := ["s=", "search=", "filter=", "sort=", "order="]

/-- Is the character allowed inside the `[a-z0-9\-]+` slug run? -/
def slugChar (c : Char) : Bool :=
  (97 ≤ c.toNat && c.toNat ≤ 122) || c.isDigit || c == '-'

/-- Model of `re.search(r'/[a-z0-9\-]+/$', s)`: the string ends in a
slash, preceded by a nonempty run of slug characters, preceded by a
slash. -/
def endsWithSlugSlash (s : String) : Bool :=
  match s.toList.reverse with
  | [] => false
  | c :: rest =>
    c == '/' &&
      (let run := rest.takeWhile slugChar
       (!run.isEmpty) &&
         (match rest.drop run.length with
          | d :: _ => d == '/'
          | [] => false))

/-- Split a character list at every slash (model of `str.split('/')`). -/
def splitOnSlash : List Char → List (List Char)
  | [] => [[]]
  | c :: cs =>
    if c == '/' then [] :: splitOnSlash cs
    else match splitOnSlash cs with
      | [] => [[c]]
      | g :: gs => (c :: g) :: gs

/-- Path segments: `[s for s in path.split('/') if s]`
(url_discovery.py line 466). -/
def pathSegments (p : String) : List String :=
  ((splitOnSlash p.toList).map String.mk).filter (fun s => s ≠ "")

/-- Embedding of `is_valid_article_url(url, base_url)`
(src/src/web_scraper/url_discovery.py lines 430-544), translated
branch by branch in source order. -/
def is_valid_article_url (url base_url : String) : Bool :=
  let pu := urlparse url
  let pb := urlparse base_url
  if pu.netloc != pb.netloc then false
  else if pu.path == "" || pu.path == "/" then false
  else if excludedPatterns.any (fun p => hasSub p (toLowerStr pu.path)) then false
  else
    let segs := pathSegments pu.path
    if (match segs with
        | [s] => s.toList.contains '-' && decide (s.length > 5)
        | _ => false) then true
    else if datePatterns.any (fun pat => rsearchS pat pu.path) then true
    else if articleIndicators.any (fun ind => hasSub ind (toLowerStr pu.path)) then true
    else if (match segs.getLast? with
             | some l => decide (segs.length ≥ 2) && decide (l.length > 5) && l.toList.contains '-'
             | none => false) then true
    else if hasSub "blueprint.ng" base_url then
      if nonArticlePages.any (fun p => leadsWith p.toList (toLowerStr pu.path).toList) then false
      else if paginationPatterns.any (fun pat =>
               rsearchS pat (toLowerStr pu.path) || rsearchS pat (toLowerStr pu.query)) then false
      else if pu.query != "" &&
              nonArticleParams.any (fun p => hasSub p (toLowerStr pu.query)) then false
      else if endsWithSlugSlash (toLowerStr pu.path ++ "/") then true
      else if decide (pu.path.length > 10) &&
              decide ((pu.path.toList.filter (fun c => c == '/')).length ≤ 2) then true
      else false
    else false

/-! ## Article comparison (src/src/utility_modules/article_comparison.py) -/

/-- JSON values stored in an article metadata map; the comparison and
merge code only reads and equality-compares them. -/
inductive JVal
  | s : String → JVal
  | n : Int → JVal
  | b : Bool → JVal
deriving Repr, DecidableEq

/-- A JSON object, modelled as an association list.  Python dicts never
hold a duplicate key, so the intended domain is lists with pairwise
distinct keys. -/
abbrev MetaMap := List (String × JVal)

/-- First-match key lookup in a metadata map. -/
def lookupMeta (m : MetaMap) (k : String) : Option JVal :=
  match m with
  | [] => none
  | kv :: rest => if kv.1 == k then some kv.2 else lookupMeta rest k

/-- Modelled from the spec: the `Article` ORM record that
article_comparison.py imports from `src.database_management.models` is
not present under src/ (only `src.database.models` is, and it lacks the
`last_checked_at` and `update_count` columns the comparison code reads).
Field list follows spec section 3's Article data model; timestamps are
rationals (hours for `last_checked_at`, matching the hour-based interval
arithmetic of `should_update_article`), and `published_at` is the
ISO-string value carried by drafts. -/
structure Article where
  title : String
  url : String
  content : Option String
  content_markdown : Option String
  content_html : Option String
  author : Option String
  published_at : Option String
  image_url : Option String
  website_id : Int
  article_metadata : MetaMap
  active : Bool
  last_checked_at : Option ℚ
  update_count : Int
deriving Repr, DecidableEq

/-- The `new_data` dict produced by scraping: each key may be absent
(`none`).  Mirrors the keys read by article_comparison.py and produced
by the extractor. -/
structure NewData where
  title : Option String
  url : Option String
  content : Option String
  content_markdown : Option String
  content_html : Option String
  author : Option String
  published_at : Option String
  image_url : Option String
  website_id : Option Int
  categories : Option (List String)
  article_metadata : Option MetaMap
  active : Option Bool
deriving Repr, DecidableEq

/-- Python truthiness of an optional string value. -/
def truthyS (o : Option String) : Bool :=
  match o with
  | some s => s != ""
  | none => false

/-- Python whitespace characters (the ASCII `\s` class). -/
def isPySpace (c : Char) : Bool :=
  c == ' ' || c == '\t' || c == '\n' || c == '\r' || c == '\x0b' || c == '\x0c'

/-- Index of the last newline in a character list, if any. -/
def lastIdxNewline : List Char → Option Nat
  | [] => none
  | c :: cs =>
    match lastIdxNewline cs with
    | some k => some (k + 1)
    | none => if c == '\n' then some 0 else none

/-- Fuel-indexed splitter for `re.split(r'\n\s*\n', s)`: at a newline,
the separator greedily extends through the following whitespace run and
backtracks to end at the last newline inside that run; otherwise the
character belongs to the current piece.  Fuel is the remaining input
length, so it never runs out. -/
def splitParasAux : Nat → List Char → List Char → List String
  | 0, acc, rest => [String.mk (acc.reverse ++ rest)]
  | _ + 1, acc, [] => [String.mk acc.reverse]
  | fuel + 1, acc, c :: rest =>
    if c == '\n' then
      let run := rest.takeWhile isPySpace
      match lastIdxNewline run with
      | some k => String.mk acc.reverse :: splitParasAux fuel [] (rest.drop (k + 1))
      | none => splitParasAux fuel (c :: acc) rest
    else splitParasAux fuel (c :: acc) rest

/-- Model of `re.split(r'\n\s*\n', s)` (paragraph splitting, used at
article_comparison.py lines 121-122 and content_validation.py). -/
def pySplitParas (s : String) : List String :=
  splitParasAux s.toList.length [] s.toList

/-- Embedding of `has_metadata_changes(existing_article, new_data)`
(article_comparison.py lines 131-165). -/
def has_metadata_changes (existing : Article) (nd : NewData) : Bool :=
  let em := existing.article_metadata
  let nm := nd.article_metadata.getD []
  if nm.isEmpty then false
  else nm.any (fun kv =>
    match lookupMeta em kv.1 with
    | none => true
    | some v => if kv.1 == "validation" then false else v != kv.2)

/-- Embedding of `has_significant_content_changes(existing_article,
new_data)` (article_comparison.py lines 82-129).  The similarity
computed by the Python standard library's
`difflib.SequenceMatcher(None, a, b).ratio()` is an external
collaborator and is passed in as the explicit argument `ratio`. -/
def has_significant_content_changes (ratio : String → String → ℚ)
    (existing : Article) (nd : NewData) : Bool :=
  let ec := existing.content.getD ""
  let nc := nd.content.getD ""
  if ec == "" && nc != "" then true
  else if nc == "" then false
  else
    let ldiff : ℚ := (((nc.length : Int) - (ec.length : Int)).natAbs : ℚ)
    let pct := ldiff / (max ec.length 1 : ℚ) * 100
    if 10 < pct then true
    else if ratio ec nc < 9 / 10 then true
    else if (pySplitParas nc).any (fun p => !(pySplitParas ec).contains p) then true
    else false

/-- Embedding of `should_update_article(existing_article, new_data,
force_update, min_update_interval_hours)` (article_comparison.py lines
21-80).  `now` is the value of `datetime.utcnow()` in hours; `ratio` is
the difflib collaborator as in `has_significant_content_changes`. -/
def should_update_article (ratio : String → String → ℚ) (now : ℚ)
    (existing : Article) (nd : NewData)
    (force_update : Bool) (min_update_interval_hours : ℚ) : Bool × List String :=
  if force_update then (true, ["Force update enabled"])
  else if (match existing.last_checked_at with
           | some t => decide (now - t < min_update_interval_hours)
           | none => false) then (false, ["Article was checked recently"])
  else if has_significant_content_changes ratio existing nd then
    (true, ["Significant content changes detected"])
  else if has_metadata_changes existing nd then (true, ["Metadata changes detected"])
  else if (match nd.categories with
           | some l => !l.isEmpty
           | none => false) then (true, ["New categories available"])
  else if truthyS nd.image_url && nd.image_url != existing.image_url then
    (true, ["Image URL changed"])
  else if truthyS nd.author && nd.author != existing.author then
    (true, ["Author information changed"])
  else if truthyS nd.published_at && nd.published_at != existing.published_at then
    (true, ["Published date changed"])
  else (false, ["No significant changes detected"])

/-- Assignment into a metadata dict: replaces the value at an existing
key (Python dicts keep the key's position), appends otherwise.  On the
intended duplicate-free domain, replacing every entry with the key is
the same as replacing the unique one. -/
def dictInsert (m : MetaMap) (k : String) (v : JVal) : MetaMap :=
  if m.any (fun kv => kv.1 == k) then
    m.map (fun kv => if kv.1 == k then (k, v) else kv)
  else m ++ [(k, v)]

/-- Overlay for a required string column: the fresh value replaces the
stored one only when present and truthy (`elif value:` in the source). -/
def overlayStr (cur : String) (v : Option String) : String :=
  match v with
  | some s => if s != "" then s else cur
  | none => cur

/-- Overlay for a nullable string column. -/
def overlayS (cur : Option String) (v : Option String) : Option String :=
  match v with
  | some s => if s != "" then some s else cur
  | none => cur

/-- The dict returned by `merge_article_data`: the fixed keys built at
article_comparison.py lines 179-193, plus the `categories` key that the
overlay loop adds when the fresh draft carries a truthy categories
list. -/
structure MergedData where
  title : String
  url : String
  content : Option String
  content_markdown : Option String
  content_html : Option String
  author : Option String
  published_at : Option String
  image_url : Option String
  website_id : Int
  article_metadata : MetaMap
  active : Bool
  last_checked_at : ℚ
  update_count : Int
  categories : Option (List String)
deriving Repr, DecidableEq

/-- Embedding of `merge_article_data(existing_article, new_data)`
(article_comparison.py lines 167-207): start from the existing record,
set `last_checked_at` to now and increment `update_count`, then overlay
each truthy fresh value, deep-merging the metadata map key by key. -/
def merge_article_data (now : ℚ) (existing : Article) (nd : NewData) : MergedData :=
  { title := overlayStr existing.title nd.title
  , url := overlayStr existing.url nd.url
  , content := overlayS existing.content nd.content
  , content_markdown := overlayS existing.content_markdown nd.content_markdown
  , content_html := overlayS existing.content_html nd.content_html
  , author := overlayS existing.author nd.author
  , published_at := overlayS existing.published_at nd.published_at
  , image_url := overlayS existing.image_url nd.image_url
  , website_id :=
      match nd.website_id with
      | some w => if w ≠ 0 then w else existing.website_id
      | none => existing.website_id
  , article_metadata :=
      match nd.article_metadata with
      | some m =>
        if !m.isEmpty then
          m.foldl (fun acc kv => dictInsert acc kv.1 kv.2) existing.article_metadata
        else existing.article_metadata
      | none => existing.article_metadata
  , active :=
      match nd.active with
      | some b => if b then b else existing.active
      | none => existing.active
  , last_checked_at := now
  , update_count := existing.update_count + 1
  , categories :=
      match nd.categories with
      | some l => if !l.isEmpty then some l else none
      | none => none }

/-- Read a merged dict back as the stored article record, as the caller
persists it; the extra `categories` key is consumed by the
article-category join, not by the articles row. -/
def mergedToArticle (m : MergedData) : Article :=
  { title := m.title
  , url := m.url
  , content := m.content
  , content_markdown := m.content_markdown
  , content_html := m.content_html
  , author := m.author
  , published_at := m.published_at
  , image_url := m.image_url
  , website_id := m.website_id
  , article_metadata := m.article_metadata
  , active := m.active
  , last_checked_at := some m.last_checked_at
  , update_count := m.update_count }

/-! ## Scraping-job lifecycle
(src/src/database/repositories/scraping_repository.py) -/

/-- Modelled from the spec: the `ScrapingJob` record that
scraping_repository.py manipulates (with `articles_found`,
`articles_scraped` and `error_message` columns) is not declared under
src/ — `src.database.models.ScrapingJob` lacks those columns — so the
field list follows spec section 3.  Timestamps are rationals. -/
structure Job where
  status : String
  start_time : Option ℚ
  end_time : Option ℚ
  articles_found : Option Int
  articles_scraped : Option Int
  error_message : Option String
  updated_at : Option ℚ
deriving Repr, DecidableEq

/-- Embedding of `create_job` (scraping_repository.py lines 28-42): a
fresh job row with the model's default status `pending`. -/
def create_job : Job :=
  { status := "pending", start_time := none, end_time := none
  , articles_found := none, articles_scraped := none
  , error_message := none, updated_at := none }

/-- Embedding of `start_job` (scraping_repository.py lines 113-132): it
unconditionally sets status to running and stamps start_time, with no
check of the job's current status. -/
def start_job (now : ℚ) (j : Job) : Job :=
  { j with status := "running", start_time := some now, updated_at := some now }

/-- Embedding of `complete_job` (scraping_repository.py lines 134-157):
unconditionally sets status to completed, stamps end_time and records
the final counts. -/
def complete_job (now : ℚ) (articles_found articles_scraped : Int) (j : Job) : Job :=
  { j with
    status := "completed",
    end_time := some now,
    articles_found := some articles_found,
    articles_scraped := some articles_scraped,
    updated_at := some now }

/-- Embedding of `fail_job` (scraping_repository.py lines 159-180):
unconditionally sets status to failed, stamps end_time and records the
error message. -/
def fail_job (now : ℚ) (error_message : String) (j : Job) : Job :=
  { j with
    status := "failed",
    end_time := some now,
    error_message := some error_message,
    updated_at := some now }

/-! ## Rate limiter (src/src/utility_modules/rate_limiter.py) -/

/-- Embedding of the history cleanup at rate_limiter.py lines 113-117:
keep only timestamps younger than one minute.  Times are rational
seconds. -/
def cleanHistory (now : ℚ) (hist : List ℚ) : List ℚ :=
  hist.filter (fun t => now - t < 60)

/-- Embedding of `RateLimiter._wait_for_rate_limit` (rate_limiter.py
lines 98-134) for one domain: given the per-domain limit, the current
time and the jitter drawn by `random.uniform(0, jitter * wait_time)`
(an external collaborator, passed in as `jitterAmount`), it returns the
total wait performed and the new request history; the timestamp
appended after sleeping is the wake-up time `now + wait`. -/
def wait_for_rate_limit (limit : Nat) (jitterAmount : ℚ) (now : ℚ)
    (hist : List ℚ) : ℚ × List ℚ :=
  let h := cleanHistory now hist
  let totalWait :=
    if limit ≤ h.length then
      match h.head? with
      | some oldest =>
        let waitTime := 60 - (now - oldest)
        if 0 < waitTime then waitTime + jitterAmount else 0
      | none => 0
    else 0
  (totalWait, h ++ [now + totalWait])

/-! ## URL discovery aggregation (src/src/web_scraper/url_discovery.py) -/

/-- Outcomes of the individual sub-discoveries, each run through
`execute_with_rate_limit`, which returns the sub-discovery's URL list
or `None` (modelled `none`) once its retries are exhausted
(rate_limiter.py lines 162-178). -/
structure DiscoveryOutcomes where
  mainPage : Option (List String)
  sitemap : String → Option (List String)
  rss : String → Option (List String)
  categoryPage : String → Option (List String)

/-- Add one element to a Python set, modelled as an insertion-ordered
duplicate-free list. -/
def insertNew (s : List String) (x : String) : List String :=
  if s.contains x then s else s ++ [x]

/-- Model of `all_urls.update(result)` where `result` may be `None`:
Python raises `TypeError: NoneType object is not iterable` in that
case. -/
def pySetUpdate (s : List String) : Option (List String) → Except String (List String)
  | none => Except.error "TypeError: NoneType object is not iterable"
  | some xs => Except.ok (xs.foldl insertNew s)

/-- The probed sitemap locations (url_discovery.py lines 186-193). -/
def sitemapLocations (base_url : String) : List String :=
  [ base_url ++ "/sitemap.xml", base_url ++ "/sitemap_index.xml"
  , base_url ++ "/sitemap-index.xml", base_url ++ "/post-sitemap.xml"
  , base_url ++ "/page-sitemap.xml", base_url ++ "/news-sitemap.xml" ]

/-- The probed RSS locations (url_discovery.py lines 201-208). -/
def rssLocations (base_url : String) : List String :=
  [ base_url ++ "/feed", base_url ++ "/rss", base_url ++ "/feed/rss"
  , base_url ++ "/rss.xml", base_url ++ "/atom.xml", base_url ++ "/feed/atom" ]

/-- The category URL patterns (url_discovery.py lines 216-221). -/
def categoryPatterns (base_url : String) : List String :=
  [ base_url ++ "/category/", base_url ++ "/categories/"
  , base_url ++ "/topics/", base_url ++ "/sections/" ]

/-- Embedding of `discover_urls(base_url, config)` (url_discovery.py
lines 164-239): union the main-page, sitemap, RSS and category-page
sub-discoveries into one deduplicated set.  Each `all_urls.update`
call is fallible because a sub-discovery whose retries were exhausted
yields `None`; the error value models the `TypeError` escaping
`discover_urls`, which has no exception handler of its own. -/
def discover_urls (env : DiscoveryOutcomes) (base_url : String) :
    Except String (List String) := do
  let s ← pySetUpdate [] env.mainPage
  let mainUrls := env.mainPage.getD []
  let s ← (sitemapLocations base_url).foldlM
      (fun acc loc => pySetUpdate acc (env.sitemap loc)) s
  let s ← (rssLocations base_url).foldlM
      (fun acc loc => pySetUpdate acc (env.rss loc)) s
  let catUrls := (categoryPatterns base_url).foldl
      (fun acc pat => acc ++ mainUrls.filter (fun u => leadsWith pat.toList u.toList)) []
  if catUrls.isEmpty then
    return s
  else
    let inner ← catUrls.foldlM (fun acc cu => pySetUpdate acc (env.categoryPage cu)) []
    return inner.foldl insertNew s

/-! ## Datetime utilities (src/src/utility_modules/datetime_utils.py) -/

/-- A Python `datetime` value: calendar fields plus an optional UTC
offset in minutes (`none` models a naive datetime). -/
structure PyDateTime where
  year : Nat
  month : Nat
  day : Nat
  hour : Nat
  minute : Nat
  second : Nat
  microsecond : Nat
  tzOffsetMinutes : Option Int
deriving Repr, DecidableEq

/-- Two-digit zero-padded numeral. -/
def pad2 (n : Nat) : String :=
  if n < 10 then "0" ++ toString n else toString n

/-- Four-digit zero-padded numeral. -/
def pad4 (n : Nat) : String :=
  if n < 10 then "000" ++ toString n
  else if n < 100 then "00" ++ toString n
  else if n < 1000 then "0" ++ toString n
  else toString n

/-- Six-digit zero-padded numeral (microseconds). -/
def pad6 (n : Nat) : String :=
  if n < 10 then "00000" ++ toString n
  else if n < 100 then "0000" ++ toString n
  else if n < 1000 then "000" ++ toString n
  else if n < 10000 then "00" ++ toString n
  else if n < 100000 then "0" ++ toString n
  else toString n

/-- Model of `datetime.isoformat()`: date, `T`, time, microseconds only
when nonzero, and the `+HH:MM`-style offset for aware values. -/
def isoformat (d : PyDateTime) : String :=
  pad4 d.year ++ "-" ++ pad2 d.month ++ "-" ++ pad2 d.day ++ "T" ++
    pad2 d.hour ++ ":" ++ pad2 d.minute ++ ":" ++ pad2 d.second ++
    (if d.microsecond = 0 then "" else "." ++ pad6 d.microsecond) ++
    (match d.tzOffsetMinutes with
     | none => ""
     | some o =>
       (if o < 0 then "-" else "+") ++ pad2 (o.natAbs / 60) ++ ":" ++ pad2 (o.natAbs % 60))

/-- Numeric value of a digit run. -/
def digitsVal (l : List Char) : Nat :=
  l.foldl (fun a c => a * 10 + (c.toNat - 48)) 0

/-- Read exactly `n` digits. -/
def readNDigits (n : Nat) (l : List Char) : Option (Nat × List Char) :=
  let pre := l.take n
  if pre.length = n && pre.all Char.isDigit then some (digitsVal pre, l.drop n) else none

/-- Read one to `maxN` digits, greedily. -/
def readFlexDigits (maxN : Nat) (l : List Char) : Option (Nat × List Char) :=
  let pre := (l.takeWhile Char.isDigit).take maxN
  if pre.isEmpty then none else some (digitsVal pre, l.drop pre.length)

/-- Is the year a Gregorian leap year? -/
def isLeapYear (y : Nat) : Bool :=
  (y % 4 == 0 && y % 100 != 0) || y % 400 == 0

/-- Days in a month (the calendar validation `strptime` and
`fromisoformat` perform). -/
def daysInMonth (y m : Nat) : Nat :=
  if m == 2 then (if isLeapYear y then 29 else 28)
  else if m == 4 || m == 6 || m == 9 || m == 11 then 30
  else 31

/-- Calendar-field validation shared by the parsers. -/
def validDate (y mo dy h mi s : Nat) : Bool :=
  1 ≤ mo && mo ≤ 12 && 1 ≤ dy && dy ≤ daysInMonth y mo &&
    h ≤ 23 && mi ≤ 59 && s ≤ 59 && 1 ≤ y && y ≤ 9999

/-- Parse the optional `±HH:MM` offset tail of an ISO string. -/
def readIsoOffset (l : List Char) : Option (Option Int × List Char) :=
  match l with
  | [] => some (none, [])
  | c :: rest =>
    if c == '+' || c == '-' then
      match readNDigits 2 rest with
      | some (oh, r1) =>
        match r1 with
        | ':' :: r2 =>
          match readNDigits 2 r2 with
          | some (om, r3) =>
            let mins : Int := (oh * 60 + om : Nat)
            some (some (if c == '-' then -mins else mins), r3)
          | none => none
        | _ => none
      | none => none
    else some (none, l)

/-- Model of `datetime.fromisoformat` on its canonical input shapes:
`YYYY-MM-DD`, optionally followed by `T` or a space and `HH:MM[:SS
[.ffffff]]`, optionally followed by a `±HH:MM` offset. -/
def fromisoformatLite (s : String) : Option PyDateTime :=
  let l := s.toList
  match readNDigits 4 l with
  | none => none
  | some (y, r1) =>
    match r1 with
    | '-' :: r2 =>
      match readNDigits 2 r2 with
      | none => none
      | some (mo, r3) =>
        match r3 with
        | '-' :: r4 =>
          match readNDigits 2 r4 with
          | none => none
          | some (dy, r5) =>
            match r5 with
            | [] => if validDate y mo dy 0 0 0 then some ⟨y, mo, dy, 0, 0, 0, 0, none⟩ else none
            | c :: r6 =>
              if c == 'T' || c == ' ' then
                match readNDigits 2 r6 with
                | none => none
                | some (h, r7) =>
                  match r7 with
                  | ':' :: r8 =>
                    match readNDigits 2 r8 with
                    | none => none
                    | some (mi, r9) =>
                      match r9 with
                      | ':' :: r10 =>
                        match readNDigits 2 r10 with
                        | none => none
                        | some (sec, r11) =>
                          match r11 with
                          | '.' :: r12 =>
                            match readFlexDigits 6 r12 with
                            | none => none
                            | some (us, r13) =>
                              match readIsoOffset r13 with
                              | some (tz, []) =>
                                if validDate y mo dy h mi sec then
                                  some ⟨y, mo, dy, h, mi, sec, us, tz⟩
                                else none
                              | _ => none
                          | _ =>
                            match readIsoOffset r11 with
                            | some (tz, []) =>
                              if validDate y mo dy h mi sec then
                                some ⟨y, mo, dy, h, mi, sec, 0, tz⟩
                              else none
                            | _ => none
                      | _ =>
                        match readIsoOffset r9 with
                        | some (tz, []) =>
                          if validDate y mo dy h mi 0 then
                            some ⟨y, mo, dy, h, mi, 0, 0, tz⟩
                          else none
                        | _ => none
                  | _ => none
              else none
        | _ => none
    | _ => none

/-- Month names for `%B`, lowercased. -/
def monthNamesFull : List (String × Nat) :=
  [ ("january", 1), ("february", 2), ("march", 3), ("april", 4)
  , ("may", 5), ("june", 6), ("july", 7), ("august", 8)
  , ("september", 9), ("october", 10), ("november", 11), ("december", 12) ]

/-- Month names for `%b`, lowercased. -/
def monthNamesAbbr : List (String × Nat) :=
  [ ("jan", 1), ("feb", 2), ("mar", 3), ("apr", 4), ("may", 5), ("jun", 6)
  , ("jul", 7), ("aug", 8), ("sep", 9), ("oct", 10), ("nov", 11), ("dec", 12) ]

/-- Read a month name (case-insensitively, as `strptime` does). -/
def readMonthName (names : List (String × Nat)) (l : List Char) : Option (Nat × List Char) :=
  match names with
  | [] => none
  | (nm, v) :: rest =>
    if leadsWith nm.toList (l.map lowerChar) then some (v, l.drop nm.length)
    else readMonthName rest l

/-- One directive of a `strptime` format string. -/
inductive FTok
  | lit : Char → FTok
  | yY | mM | dD | hH | minM | secS | monthFull | monthAbbr
deriving Repr, DecidableEq

/-- Partial date accumulated while running a format. -/
structure DTParts where
  y : Nat := 1900
  mo : Nat := 1
  dy : Nat := 1
  h : Nat := 0
  mi : Nat := 0
  s : Nat := 0
deriving Repr, DecidableEq

/-- Run a `strptime` format against the whole input (digit directives
read one-or-more digits up to the directive's width, as CPython's
`_strptime` does). -/
def strptimeRun : List FTok → List Char → DTParts → Option DTParts
  | [], [], acc => some acc
  | [], _ :: _, _ => none
  | FTok.lit c :: ts, l, acc =>
    match l with
    | x :: xs => if x == c then strptimeRun ts xs acc else none
    | [] => none
  | FTok.yY :: ts, l, acc =>
    match readFlexDigits 4 l with
    | some (v, rest) => strptimeRun ts rest { acc with y := v }
    | none => none
  | FTok.mM :: ts, l, acc =>
    match readFlexDigits 2 l with
    | some (v, rest) => strptimeRun ts rest { acc with mo := v }
    | none => none
  | FTok.dD :: ts, l, acc =>
    match readFlexDigits 2 l with
    | some (v, rest) => strptimeRun ts rest { acc with dy := v }
    | none => none
  | FTok.hH :: ts, l, acc =>
    match readFlexDigits 2 l with
    | some (v, rest) => strptimeRun ts rest { acc with h := v }
    | none => none
  | FTok.minM :: ts, l, acc =>
    match readFlexDigits 2 l with
    | some (v, rest) => strptimeRun ts rest { acc with mi := v }
    | none => none
  | FTok.secS :: ts, l, acc =>
    match readFlexDigits 2 l with
    | some (v, rest) => strptimeRun ts rest { acc with s := v }
    | none => none
  | FTok.monthFull :: ts, l, acc =>
    match readMonthName monthNamesFull l with
    | some (v, rest) => strptimeRun ts rest { acc with mo := v }
    | none => none
  | FTok.monthAbbr :: ts, l, acc =>
    match readMonthName monthNamesAbbr l with
    | some (v, rest) => strptimeRun ts rest { acc with mo := v }
    | none => none

/-- The format list tried by `parse_datetime`
(datetime_utils.py lines 52-63), tokenized. -/
def parseFormats : List (List FTok) :=
  [ [FTok.yY, FTok.lit '-', FTok.mM, FTok.lit '-', FTok.dD]
  , [FTok.yY, FTok.lit '/', FTok.mM, FTok.lit '/', FTok.dD]
  , [FTok.dD, FTok.lit '-', FTok.mM, FTok.lit '-', FTok.yY]
  , [FTok.dD, FTok.lit '/', FTok.mM, FTok.lit '/', FTok.yY]
  , [FTok.monthFull, FTok.lit ' ', FTok.dD, FTok.lit ',', FTok.lit ' ', FTok.yY]
  , [FTok.monthAbbr, FTok.lit ' ', FTok.dD, FTok.lit ',', FTok.lit ' ', FTok.yY]
  , [FTok.dD, FTok.lit ' ', FTok.monthFull, FTok.lit ' ', FTok.yY]
  , [FTok.dD, FTok.lit ' ', FTok.monthAbbr, FTok.lit ' ', FTok.yY]
  , [FTok.yY, FTok.lit '-', FTok.mM, FTok.lit '-', FTok.dD, FTok.lit 'T'
    , FTok.hH, FTok.lit ':', FTok.minM, FTok.lit ':', FTok.secS]
  , [FTok.yY, FTok.lit '-', FTok.mM, FTok.lit '-', FTok.dD, FTok.lit ' '
    , FTok.hH, FTok.lit ':', FTok.minM, FTok.lit ':', FTok.secS] ]

/-- Try the `strptime` formats in order; a successful parse is stamped
UTC (`dt.replace(tzinfo=timezone.utc)` at datetime_utils.py line 69). -/
def tryFormats (s : String) : Option PyDateTime :=
  match parseFormats.filterMap (fun f =>
    match strptimeRun f s.toList {} with
    | some p => if validDate p.y p.mo p.dy p.h p.mi p.s then
        some (⟨p.y, p.mo, p.dy, p.h, p.mi, p.s, 0, some 0⟩ : PyDateTime)
      else none
    | none => none) with
  | out :: _ => some out
  | [] => none

/-- Find the first position where a token pattern matches and return
the matched characters (regex capture of group 1). -/
def rextract (ts : List RTok) : List Char → Option (List Char)
  | [] => if rmatchAt ts [] then some [] else none
  | x :: xs =>
    if rmatchAt ts (x :: xs) then some ((x :: xs).take ts.length)
    else rextract ts xs

/-- Is the character in Python's `\w` class (ASCII range)? -/
def wordChar (c : Char) : Bool := c.isAlphanum || c == '_'

/-- Extraction for the pattern `(\w+ \d{1,2}, \d{4})`: at each position
a maximal word run, a space, one or two digits, a comma-space, and four
digits (the `\w+` run cannot backtrack because the following space is
not a word character). -/
def extractMonthDayYear : List Char → Option (List Char)
  | [] => none
  | x :: xs =>
    let run := (x :: xs).takeWhile wordChar
    let attempt : Option (List Char) :=
      if run.isEmpty then none
      else
        match (x :: xs).drop run.length with
        | ' ' :: r1 =>
          match readFlexDigits 2 r1 with
          | some (_, ',' :: ' ' :: r2) =>
            if (r2.take 4).length = 4 && (r2.take 4).all Char.isDigit then
              some (run ++ [' '] ++ (r1.take (r1.length - r2.length - 2)) ++ [','] ++ [' '] ++ r2.take 4)
            else none
          | _ => none
        | _ => none
    match attempt with
    | some m => some m
    | none => extractMonthDayYear xs

/-- The regex extraction patterns of `parse_datetime`
(datetime_utils.py lines 75-80), in order; the fourth, word-based
pattern is handled by `extractMonthDayYear`. -/
def tryRegexExtract (l : List Char) : Option (List Char) :=
  match rextract (digToks 4 ++ litToks "-" ++ digToks 2 ++ litToks "-" ++ digToks 2) l with
  | some m => some m
  | none =>
    match rextract (digToks 2 ++ litToks "/" ++ digToks 2 ++ litToks "/" ++ digToks 4) l with
    | some m => some m
    | none =>
      match rextract (digToks 4 ++ litToks "/" ++ digToks 2 ++ litToks "/" ++ digToks 2) l with
      | some m => some m
      | none => extractMonthDayYear l

/-- Replace every `Z` by `+00:00` (the source first checks
`endswith('Z')`, then replaces all occurrences). -/
def replaceZ (s : String) : String :=
  if s.toList.getLast? == some 'Z' then
    String.mk (s.toList.foldr (fun c acc => if c == 'Z' then "+00:00".toList ++ acc else c :: acc) [])
  else s

/-- The ISO attempt of `parse_datetime` (datetime_utils.py lines
37-49): Z-normalization, `fromisoformat`, then a naive result is
stamped UTC. -/
def tryIso (s : String) : Option PyDateTime :=
  match fromisoformatLite (replaceZ s) with
  | some d => some (if d.tzOffsetMinutes.isNone then { d with tzOffsetMinutes := some 0 } else d)
  | none => none

/-- One full pass of the string-parsing chain of `parse_datetime`:
ISO attempt, then the strptime formats, then regex extraction followed
by one recursive pass over the extracted text.  (On an extracted match
that itself fails every format — e.g. `2023-99-99` — the Python
function recurses on the same string forever until `RecursionError`;
that unreachable-in-practice corner is modelled as a failed parse.) -/
def tryParseDateString (s : String) : Option PyDateTime :=
  match tryIso s with
  | some d => some d
  | none =>
    match tryFormats s with
    | some d => some d
    | none =>
      match tryRegexExtract s.toList with
      | some m =>
        let ex := String.mk m
        (match tryIso ex with
         | some d => some d
         | none => tryFormats ex)
      | none => none

/-- The argument passed to `parse_datetime`: `None`, an existing
`datetime` object, or a string. -/
inductive PyDateValue
  | noneV
  | dtV : PyDateTime → PyDateValue
  | strV : String → PyDateValue
deriving Repr, DecidableEq

/-- Embedding of `parse_datetime(date_value)`
(src/src/utility_modules/datetime_utils.py lines 15-92).  `nowUtc` is
the external clock value returned by `datetime.now(timezone.utc)`.
Note the function always returns a timestamp string: every falsy or
unparsable input falls through to `datetime.now(timezone.utc)
.isoformat()` (lines 25-26 and 88-92), although its own docstring
documents `None` on failure. -/
def parse_datetime (nowUtc : PyDateTime) : PyDateValue → String
  | PyDateValue.noneV => isoformat nowUtc
  | PyDateValue.dtV d =>
    isoformat (if d.tzOffsetMinutes.isNone then { d with tzOffsetMinutes := some 0 } else d)
  | PyDateValue.strV s =>
    if s == "" then isoformat nowUtc
    else
      match tryParseDateString s with
      | some d => isoformat d
      | none => isoformat nowUtc

/-! ## Content validation (src/src/utility_modules/content_validation.py) -/

/-- The validation thresholds read by `ContentValidator.__init__`
(content_validation.py lines 68-85); the spam/clickbait/placeholder
pattern lists (lines 88-150) are carried as literal substrings, which
is how `re.search`/`re.findall` treat every default entry apart from
the two inert `\\d`-escaped clickbait entries. -/
structure VConfig where
  enabled : Bool
  min_quality_score : ℚ
  min_title_length : Nat
  max_title_length : Nat
  min_content_length : Nat
  max_content_length : Nat
  min_word_count : Nat
  min_paragraph_count : Nat
  max_duplicate_paragraph_ratio : ℚ
  min_image_count : Nat
  max_recent_date_days : ℚ
  spam_patterns : List String
  clickbait_patterns : List String
  placeholder_patterns : List String

/-- The draft's `published_at` value as the validator's parsing chain
(content_validation.py lines 393-422) classifies it: falsy, parsed to a
timestamp (rational epoch seconds), or a string no format accepts. -/
inductive PubVal
  | missing
  | parsed : ℚ → PubVal
  | unparsable : String → PubVal
deriving Repr, DecidableEq

/-- The `article_data` dict fields read by `validate_article`
(content_validation.py lines 176-183); absent keys default to the empty
string, as `article_data.get(k, "")` does. -/
structure Draft where
  title : String
  content : String
  content_markdown : String
  content_html : String
  author : String
  published_at : PubVal
  image_url : String
  article_metadata : MetaMap
deriving Repr, DecidableEq

/-- Result triple of the private validators: `(is_valid, issues,
score_penalty)`. -/
structure SubVal where
  ok : Bool
  issues : List String
  penalty : ℚ
deriving Repr, DecidableEq

/-- Number of `\w+` matches: maximal word-character runs
(model of `len(re.findall(r'\w+', s))`). -/
def countWordsAux : Bool → List Char → Nat
  | _, [] => 0
  | inw, c :: cs =>
    if wordChar c then (if inw then 0 else 1) + countWordsAux true cs
    else countWordsAux false cs

/-- Word count of a string. -/
def countWords (s : String) : Nat := countWordsAux false s.toList

/-- Count of non-overlapping occurrences of a literal pattern, scanning
left to right (model of `len(re.findall(lit, s))`); fuel is the
remaining input length. -/
def countSubAux : Nat → List Char → List Char → Nat
  | 0, _, _ => 0
  | _ + 1, needle, [] => if needle.isEmpty then 1 else 0
  | fuel + 1, needle, c :: cs =>
    if leadsWith needle (c :: cs) then 1 + countSubAux fuel needle ((c :: cs).drop needle.length)
    else countSubAux fuel needle cs

/-- String wrapper for `countSubAux`. -/
def countSub (needle hay : String) : Nat :=
  if needle.toList.isEmpty then hay.length + 1
  else countSubAux hay.toList.length needle.toList hay.toList

/-- Characters up to and excluding the first occurrence of `stop`,
failing on a newline (regex `.` does not match newlines); returns the
remainder after `stop`. -/
def afterUpTo (stop : Char) : List Char → Option (List Char)
  | [] => none
  | c :: cs => if c == stop then some cs else if c == '\n' then none else afterUpTo stop cs

/-- Count of markdown image matches `!\[.*?\]\(.*?\)` with lazy,
newline-free bodies; a failed attempt advances one character (the
engine's deeper `]`-backtracking is not modelled — it changes nothing
on markdown produced by the extractor). -/
def countMdImagesAux : Nat → List Char → Nat
  | 0, _ => 0
  | _ + 1, [] => 0
  | fuel + 1, c :: cs =>
    if leadsWith "![".toList (c :: cs) then
      match afterUpTo ']' (cs.drop 1) with
      | some r1 =>
        match r1 with
        | '(' :: r2 =>
          match afterUpTo ')' r2 with
          | some r3 => 1 + countMdImagesAux fuel r3
          | none => countMdImagesAux fuel cs
        | _ => countMdImagesAux fuel cs
      | none => countMdImagesAux fuel cs
    else countMdImagesAux fuel cs

/-- Markdown image count of a string. -/
def countMdImages (s : String) : Nat := countMdImagesAux s.toList.length s.toList

/-- Does the attribute segment of an `<img` tag (the characters before
its closing `>`) contain, not at its first position, `src=` followed by
a quote, a nonempty quote-free run, and a quote
(the `[^>]+src=["\']([^"\']+)["\']` core of the pattern)? -/
def srcScan : List Char → Bool
  | [] => false
  | c :: cs =>
    (leadsWith "src=".toList (c :: cs) &&
      (match (c :: cs).drop 4 with
       | q :: qs =>
         (q == '"' || q == Char.ofNat 39) &&
           (let mid := qs.takeWhile (fun d => d ≠ '"' ∧ d ≠ Char.ofNat 39)
            !mid.isEmpty &&
              (match qs.drop mid.length with
               | _ :: _ => true
               | [] => false))
       | [] => false))
      || srcScan cs

/-- Count of `<img[^>]+src=["\']([^"\']+)["\'][^>]*>` matches: an
`<img` opener whose segment up to the next `>` passes `srcScan`; the
match consumes through that `>`. -/
def countHtmlImagesAux : Nat → List Char → Nat
  | 0, _ => 0
  | _ + 1, [] => 0
  | fuel + 1, c :: cs =>
    if leadsWith "<img".toList (c :: cs) then
      let after := (c :: cs).drop 4
      let seg := after.takeWhile (fun d => d ≠ '>')
      match after.drop seg.length with
      | _ :: restAfter =>
        if !seg.isEmpty &&
            (match seg with
             | [] => false
             | _ :: segRest => srcScan segRest) then
          1 + countHtmlImagesAux fuel restAfter
        else countHtmlImagesAux fuel cs
      | [] => countHtmlImagesAux fuel cs
    else countHtmlImagesAux fuel cs

/-- HTML image count of a string. -/
def countHtmlImages (s : String) : Nat := countHtmlImagesAux s.toList.length s.toList

/-- Strip one pass of `<[^>]+>` tags, each replaced by a space
(content_validation.py line 506); an unmatched or empty `<...>` is
left in place, as the regex does not match it. -/
def stripTagsAux : Nat → List Char → List Char
  | 0, l => l
  | _ + 1, [] => []
  | fuel + 1, c :: cs =>
    if c == '<' then
      let seg := cs.takeWhile (fun d => d ≠ '>')
      if seg.isEmpty then c :: stripTagsAux fuel cs
      else
        match cs.drop seg.length with
        | _ :: rest => ' ' :: stripTagsAux fuel rest
        | [] => c :: stripTagsAux fuel cs
    else c :: stripTagsAux fuel cs

/-- Collapse whitespace runs to single spaces
(content_validation.py line 509). -/
def collapseWsAux : Bool → List Char → List Char
  | _, [] => []
  | pw, c :: cs =>
    if isPySpace c then
      (if pw then collapseWsAux true cs else ' ' :: collapseWsAux true cs)
    else c :: collapseWsAux false cs

/-- Replace all occurrences of a literal substring. -/
def replaceSubAux : Nat → List Char → List Char → List Char → List Char
  | 0, _, _, l => l
  | _ + 1, _, _, [] => []
  | fuel + 1, needle, repl, c :: cs =>
    if !needle.isEmpty && leadsWith needle (c :: cs) then
      repl ++ replaceSubAux fuel needle repl ((c :: cs).drop needle.length)
    else c :: replaceSubAux fuel needle repl cs

/-- String wrapper for `replaceSubAux`. -/
def replaceSub (s needle repl : String) : String :=
  String.mk (replaceSubAux s.toList.length needle.toList repl.toList s.toList)

/-- Strip leading and trailing whitespace (`str.strip()`). -/
def stripStr (s : String) : String :=
  String.mk (((s.toList.dropWhile isPySpace).reverse.dropWhile isPySpace).reverse)

/-- Embedding of `ContentValidator._strip_html_tags`
(content_validation.py lines 495-519): tags to spaces, whitespace
collapsed, entities unescaped in source order, then stripped. -/
def strip_html_tags (html : String) : String :=
  let t1 := String.mk (stripTagsAux html.toList.length html.toList)
  let t2 := String.mk (collapseWsAux false t1.toList)
  let t3 := replaceSub t2 "&nbsp;" " "
  let t4 := replaceSub t3 "&amp;" "&"
  let t5 := replaceSub t4 "&lt;" "<"
  let t6 := replaceSub t5 "&gt;" ">"
  let t7 := replaceSub t6 "&quot;" (String.mk ['"'])
  let t8 := replaceSub t7 "&#39;" (String.mk [Char.ofNat 39])
  stripStr t8

/-- Python `str.isupper()` on ASCII text: at least one cased character
and no lowercase one. -/
def pyIsUpper (s : String) : Bool :=
  s.toList.any (fun c => c.isUpper) && s.toList.all (fun c => !c.isLower)

/-- Embedding of `ContentValidator._validate_title`
(content_validation.py lines 244-291). -/
def validate_title (cfg : VConfig) (title : String) : SubVal :=
  if title == "" then ⟨false, ["[CRITICAL] Title is missing"], 50⟩
  else
    let shortIssues : List String :=
      if title.length < cfg.min_title_length then
        ["Title is too short (" ++ toString title.length ++ " chars, minimum " ++
          toString cfg.min_title_length ++ ")"]
      else []
    let shortPen : ℚ := if title.length < cfg.min_title_length then 10 else 0
    let longIssues : List String :=
      if title.length > cfg.max_title_length then
        ["Title is too long (" ++ toString title.length ++ " chars, maximum " ++
          toString cfg.max_title_length ++ ")"]
      else []
    let longPen : ℚ := if title.length > cfg.max_title_length then 5 else 0
    let clickbaitCount :=
      (cfg.clickbait_patterns.filter (fun p => hasSub p (toLowerStr title))).length
    let cbIssues : List String :=
      if clickbaitCount > 0 then
        ["Title contains " ++ toString clickbaitCount ++ " clickbait patterns"]
      else []
    let cbPen : ℚ := if clickbaitCount > 0 then min 20 (clickbaitCount * 5 : ℚ) else 0
    let capsHit := pyIsUpper title && decide (title.length > 10)
    let capsIssues : List String := if capsHit then ["Title is in all caps"] else []
    let capsPen : ℚ := if capsHit then 10 else 0
    let punctHit :=
      decide ((title.toList.filter (fun c => c == '!')).length > 1) ||
        decide ((title.toList.filter (fun c => c == '?')).length > 2)
    let punctIssues : List String :=
      if punctHit then ["Title contains excessive punctuation"] else []
    let punctPen : ℚ := if punctHit then 5 else 0
    let issues := shortIssues ++ longIssues ++ cbIssues ++ capsIssues ++ punctIssues
    ⟨issues.isEmpty, issues, shortPen + longPen + cbPen + capsPen + punctPen⟩

/-- Embedding of `ContentValidator._validate_content`
(content_validation.py lines 293-355). -/
def validate_content (cfg : VConfig) (content : String) : SubVal :=
  if content == "" then ⟨false, ["[CRITICAL] Content is missing"], 50⟩
  else
    let shortIssues : List String :=
      if content.length < cfg.min_content_length then
        ["Content is too short (" ++ toString content.length ++ " chars, minimum " ++
          toString cfg.min_content_length ++ ")"]
      else []
    let shortPen : ℚ := if content.length < cfg.min_content_length then 20 else 0
    let longIssues : List String :=
      if content.length > cfg.max_content_length then
        ["Content is too long (" ++ toString content.length ++ " chars, maximum " ++
          toString cfg.max_content_length ++ ")"]
      else []
    let longPen : ℚ := if content.length > cfg.max_content_length then 5 else 0
    let wc := countWords content
    let wcIssues : List String :=
      if wc < cfg.min_word_count then
        ["Content has too few words (" ++ toString wc ++ " words, minimum " ++
          toString cfg.min_word_count ++ ")"]
      else []
    let wcPen : ℚ := if wc < cfg.min_word_count then 15 else 0
    let paras := pySplitParas content
    let paraIssues : List String :=
      if paras.length < cfg.min_paragraph_count then
        ["Content has too few paragraphs (" ++ toString paras.length ++
          " paragraphs, minimum " ++ toString cfg.min_paragraph_count ++ ")"]
      else []
    let paraPen : ℚ := if paras.length < cfg.min_paragraph_count then 10 else 0
    let dupRatio : ℚ :=
      if paras.isEmpty then 0 else 1 - (paras.dedup.length : ℚ) / (paras.length : ℚ)
    let dupHit := decide (dupRatio > cfg.max_duplicate_paragraph_ratio)
    let dupIssues : List String :=
      if dupHit then ["Content has high duplicate paragraph ratio"] else []
    let dupPen : ℚ := if dupHit then 15 else 0
    let spamCount := (cfg.spam_patterns.map (fun p => countSub p (toLowerStr content))).sum
    let spamIssues : List String :=
      if spamCount > 0 then
        ["Content contains " ++ toString spamCount ++ " spam patterns"]
      else []
    let spamPen : ℚ := if spamCount > 0 then min 20 (spamCount * 2 : ℚ) else 0
    let placeholderHit :=
      cfg.placeholder_patterns.any (fun p => hasSub p (toLowerStr content))
    let phIssues : List String :=
      if placeholderHit then ["Content contains placeholder text"] else []
    let phPen : ℚ := if placeholderHit then 30 else 0
    let issues := shortIssues ++ longIssues ++ wcIssues ++ paraIssues ++ dupIssues ++
      spamIssues ++ phIssues
    ⟨issues.isEmpty, issues,
      shortPen + longPen + wcPen + paraPen + dupPen + spamPen + phPen⟩

/-- The generic author names of `_validate_author`
(content_validation.py line 374). -/
def genericAuthors : List String :=
  ["unknown", "admin", "administrator", "staff", "editor", "guest"]

/-- Embedding of `ContentValidator._validate_author`
(content_validation.py lines 357-378). -/
def validate_author (author : String) : SubVal :=
  if author == "" then ⟨false, ["Author is missing"], 5⟩
  else if genericAuthors.contains (toLowerStr author) then
    ⟨false, ["Author has generic name: " ++ author], 3⟩
  else ⟨true, [], 0⟩

/-- Embedding of `ContentValidator._validate_published_date`
(content_validation.py lines 380-435); `now` is `datetime.utcnow()` in
epoch seconds and dates compare as rational timestamps.  For a parsed
date, Python formats the datetime into the issue text; the model prints
the rational timestamp. -/
def validate_published_date (cfg : VConfig) (now : ℚ) : PubVal → SubVal
  | PubVal.missing => ⟨false, ["Published date is missing"], 5⟩
  | PubVal.unparsable s => ⟨false, ["Published date has invalid format: " ++ s], 5⟩
  | PubVal.parsed t =>
    let futIssues : List String :=
      if t > now then ["Published date is in the future: " ++ toString t] else []
    let futPen : ℚ := if t > now then 10 else 0
    let oldHit := decide (t < now - cfg.max_recent_date_days * 86400)
    let oldIssues : List String :=
      if oldHit then ["Published date is too old: " ++ toString t] else []
    let oldPen : ℚ := if oldHit then 5 else 0
    let issues := futIssues ++ oldIssues
    ⟨issues.isEmpty, issues, futPen + oldPen⟩

/-- Embedding of `ContentValidator._validate_images`
(content_validation.py lines 437-466). -/
def validate_images (cfg : VConfig) (image_url content : String) : SubVal :=
  let imageCount := (if image_url != "" then 1 else 0) +
    countMdImages content + countHtmlImages content
  if imageCount < cfg.min_image_count then
    ⟨false,
      ["Article has too few images (" ++ toString imageCount ++ " images, minimum " ++
        toString cfg.min_image_count ++ ")"], 5⟩
  else ⟨true, [], 0⟩

/-- Embedding of `ContentValidator._validate_metadata`
(content_validation.py lines 468-493); the `word_count` entry is the
integer the extractor stores there. -/
def validate_metadata (cfg : VConfig) (m : MetaMap) : SubVal :=
  if m.isEmpty then ⟨false, ["Metadata is missing"], 5⟩
  else
    let wc : Int :=
      match lookupMeta m "word_count" with
      | some (JVal.n k) => k
      | _ => 0
    if wc < (cfg.min_word_count : Int) then
      ⟨false,
        ["Metadata word count is too low (" ++ toString wc ++ " words, minimum " ++
          toString cfg.min_word_count ++ ")"], 5⟩
    else ⟨true, [], 0⟩

/-- The result of `validate_article`: the `ValidationResult` object
plus its metadata dict, whose fixed keys are carried as fields (the
disabled-validation branch builds a dict with only
`validation_enabled`; the remaining fields then carry the neutral
values 100 and 0). -/
structure VResult where
  is_valid : Bool
  score : ℚ
  issues : List String
  validation_enabled : Bool
  title_score : ℚ
  content_score : ℚ
  author_score : ℚ
  date_score : ℚ
  image_score : ℚ
  metadata_score : ℚ
  word_count : Nat
  paragraph_count : Nat
deriving Repr, DecidableEq

/-- Embedding of `ContentValidator.validate_article(article_data)`
(content_validation.py lines 152-242). -/
def validate_article (cfg : VConfig) (now : ℚ) (d : Draft) : VResult :=
  if !cfg.enabled then
    { is_valid := true, score := 100, issues := [], validation_enabled := false
    , title_score := 100, content_score := 100, author_score := 100
    , date_score := 100, image_score := 100, metadata_score := 100
    , word_count := 0, paragraph_count := 0 }
  else
    let mainContent :=
      if d.content_markdown != "" then d.content_markdown
      else if d.content != "" then d.content
      else if d.content_html != "" then strip_html_tags d.content_html
      else ""
    let t := validate_title cfg d.title
    let c := validate_content cfg mainContent
    let a := validate_author d.author
    let dt := validate_published_date cfg now d.published_at
    let im := validate_images cfg d.image_url mainContent
    let md := validate_metadata cfg d.article_metadata
    let issues := t.issues ++ c.issues ++ a.issues ++ dt.issues ++ im.issues ++ md.issues
    let score :=
      max 0 (min 100 (100 - t.penalty - c.penalty - a.penalty - dt.penalty -
        im.penalty - md.penalty))
    let isValid := decide (score ≥ cfg.min_quality_score) &&
      !issues.any (fun i => leadsWith "[CRITICAL]".toList i.toList)
    { is_valid := isValid, score := score, issues := issues, validation_enabled := true
    , title_score := 100 - t.penalty, content_score := 100 - c.penalty
    , author_score := 100 - a.penalty, date_score := 100 - dt.penalty
    , image_score := 100 - im.penalty, metadata_score := 100 - md.penalty
    , word_count := countWords mainContent
    , paragraph_count := (pySplitParas mainContent).length }

/-! ## Concrete instances used to instantiate the theorems -/

/-- A stand-in for the difflib ratio collaborator that agrees with
`SequenceMatcher.ratio` on the concrete inputs used below: identical
short strings score 1.0. -/
def ratioEq : String → String → ℚ := fun a b => if a = b then 1 else 0

/-- A concrete stored article. -/
def artIdent : Article :=
  { title := "A headline", url := "https://example.com/a-headline"
  , content := some "Body text of the story.", content_markdown := some "# A headline"
  , content_html := some "<p>Body text of the story.</p>", author := some "Jane Doe"
  , published_at := some "2025-01-02T03:04:05+00:00"
  , image_url := some "https://example.com/i.jpg"
  , website_id := 1
  , article_metadata := [("word_count", JVal.n 5), ("tags", JVal.s "news")]
  , active := true, last_checked_at := some 0, update_count := 0 }

/-- A fresh draft identical to `artIdent` field by field, whose
categories list repeats the article's existing category. -/
def ndIdent : NewData :=
  { title := some "A headline", url := some "https://example.com/a-headline"
  , content := some "Body text of the story.", content_markdown := some "# A headline"
  , content_html := some "<p>Body text of the story.</p>", author := some "Jane Doe"
  , published_at := some "2025-01-02T03:04:05+00:00"
  , image_url := some "https://example.com/i.jpg"
  , website_id := some 1
  , categories := some ["Politics"]
  , article_metadata := some [("word_count", JVal.n 5), ("tags", JVal.s "news")]
  , active := some true }

/-- The draft of `ndIdent` with no categories entry. -/
def ndIdentNoCat : NewData := { ndIdent with categories := none }

/-- A draft whose extraction came back with empty content. -/
def ndEmptyContent : NewData := { ndIdentNoCat with content := some "" }

/-- Discovery outcomes in which the homepage sub-discovery exhausted
its retries, so `execute_with_rate_limit` returned `None`, while every
probe sub-discovery succeeded. -/
def cbEnv : DiscoveryOutcomes :=
  { mainPage := none, sitemap := fun _ => some [], rss := fun _ => some []
  , categoryPage := fun _ => some [] }

/-- A concrete validator configuration with validation enabled and
`min_title_length = 10`. -/
def vcfgW : VConfig :=
  { enabled := true, min_quality_score := 50, min_title_length := 10
  , max_title_length := 200, min_content_length := 100, max_content_length := 100000
  , min_word_count := 50, min_paragraph_count := 2
  , max_duplicate_paragraph_ratio := 3 / 10, min_image_count := 1
  , max_recent_date_days := 30, spam_patterns := ["buy now", "click here"]
  , clickbait_patterns := ["shocking", "secret"]
  , placeholder_patterns := ["lorem ipsum"] }

/-- A concrete draft whose title has exactly five characters. -/
def draftShortTitle : Draft :=
  { title := "Short", content := "Some body.", content_markdown := ""
  , content_html := "", author := "Jane", published_at := PubVal.missing
  , image_url := "", article_metadata := [("word_count", JVal.n 2)] }

/-! ## Helper lemmas -/

/-- No element of a list is missing from that list. -/
theorem any_not_contains_self (l : List String) : (l.any fun p => !l.contains p) = false := by
  simp [List.any_eq_true]

/-- On a duplicate-key-free map, lookup of any entry's key returns that
entry's value. -/
theorem lookupMeta_self (m : MetaMap) (hnd : (m.map Prod.fst).Nodup) :
    ∀ kv ∈ m, lookupMeta m kv.1 = some kv.2 := by
  induction m with
  | nil => intro kv h; cases h
  | cons hd tl ih =>
    intro kv hkv
    rcases List.mem_cons.mp hkv with h | h
    · rw [h]; simp [lookupMeta]
    · have hne : hd.1 ≠ kv.1 := by
        intro he
        have hm : kv.1 ∈ tl.map Prod.fst := List.mem_map_of_mem _ h
        rw [← he] at hm
        exact (List.nodup_cons.mp hnd).1 hm
      have htl := ih (List.nodup_cons.mp hnd).2 kv h
      simp [lookupMeta, hne, htl]

/-- On a duplicate-key-free map, entries with equal keys are equal. -/
theorem pair_eq_of_nodup_keys (m : MetaMap) (hnd : (m.map Prod.fst).Nodup)
    (a b : String × JVal) (ha : a ∈ m) (hb : b ∈ m) (hk : a.1 = b.1) : a = b := by
  have e1 := lookupMeta_self m hnd a ha
  have e2 := lookupMeta_self m hnd b hb
  rw [hk] at e1
  rw [e1] at e2
  exact Prod.ext hk (Option.some.inj e2)

/-- Re-inserting an entry a duplicate-key-free map already holds leaves
the map unchanged. -/
theorem dictInsert_mem_self (m : MetaMap) (hnd : (m.map Prod.fst).Nodup)
    (k : String) (v : JVal) (hkv : (k, v) ∈ m) : dictInsert m k v = m := by
  have hany : m.any (fun kv => kv.1 == k) = true :=
    List.any_eq_true.mpr ⟨(k, v), hkv, by simp⟩
  unfold dictInsert
  rw [if_pos hany]
  have hcongr : ∀ kv ∈ m, (if kv.1 == k then (k, v) else kv) = kv := by
    intro kv hm
    by_cases hke : kv.1 = k
    · have : kv = (k, v) := pair_eq_of_nodup_keys m hnd kv (k, v) hm hkv (by rw [hke])
      simp [hke, this]
    · simp [hke]
  calc m.map (fun kv => if kv.1 == k then (k, v) else kv) = m.map id :=
        List.map_congr_left hcongr
    _ = m := List.map_id m

/-- Folding the deep-merge assignment over entries the map already
holds leaves the map unchanged. -/
theorem foldl_dictInsert_self (m : MetaMap) (hnd : (m.map Prod.fst).Nodup) :
    ∀ (l : MetaMap), (∀ kv ∈ l, kv ∈ m) →
      l.foldl (fun acc kv => dictInsert acc kv.1 kv.2) m = m := by
  intro l
  induction l with
  | nil => intro _; rfl
  | cons hd tl ih =>
    intro hsub
    have h1 : dictInsert m hd.1 hd.2 = m :=
      dictInsert_mem_self m hnd hd.1 hd.2 (by have := hsub hd (by simp); simpa using this)
    simp only [List.foldl_cons, h1]
    exact ih (fun kv hm => hsub kv (List.mem_cons_of_mem _ hm))

/-- Overlaying a required string field with its own value is the
identity. -/
theorem overlayStr_self (c : String) : overlayStr c (some c) = c := by
  show (if c != "" then c else c) = c
  split <;> rfl

/-- Overlaying a nullable string field with its own value is the
identity. -/
theorem overlayS_self (c : Option String) : overlayS c c = c := by
  cases c with
  | none => rfl
  | some s =>
    show (if s != "" then some s else some s) = some s
    split <;> rfl

/-- A fresh draft identical to the stored record exhibits no
significant content change, given the similarity of the unchanged
content to itself is not below the 0.9 threshold. -/
theorem hscc_self (ratio : String → String → ℚ) (existing : Article) (nd : NewData)
    (hcont : nd.content = existing.content)
    (hr : ¬ ratio (existing.content.getD "") (existing.content.getD "") < 9 / 10) :
    has_significant_content_changes ratio existing nd = false := by
  unfold has_significant_content_changes
  rw [hcont]
  by_cases he : existing.content.getD "" = ""
  · simp [he]
  · have hbe : (existing.content.getD "" == "") = false := by simpa using he
    simp only [hbe, Bool.false_and, Bool.false_eq_true, if_false, bne_self_eq_false]
    simp only [sub_self, Int.natAbs_zero, Nat.cast_zero, zero_div, zero_mul]
    have h10 : ¬ (10 : ℚ) < 0 := by norm_num
    simp [h10, hr, any_not_contains_self]

/-- A fresh draft whose metadata equals the stored duplicate-free
metadata map exhibits no metadata change. -/
theorem hmc_self (existing : Article) (nd : NewData)
    (hnd : (existing.article_metadata.map Prod.fst).Nodup)
    (hmeta : nd.article_metadata = some existing.article_metadata) :
    has_metadata_changes existing nd = false := by
  unfold has_metadata_changes
  rw [hmeta]
  by_cases he : existing.article_metadata.isEmpty
  · simp [he]
  · simp only [Option.getD_some, he, Bool.false_eq_true, if_false]
    rw [List.any_eq_false]
    intro kv hkv
    rw [lookupMeta_self existing.article_metadata hnd kv hkv]
    by_cases hv : kv.1 = "validation" <;> simp [hv]

/-- On an identical duplicate-free draft, the merge keeps every content
field of the existing record, stamps the clock and increments the
update counter. -/
theorem merge_fields_self (now : ℚ) (existing : Article) (nd : NewData)
    (hnodup : (existing.article_metadata.map Prod.fst).Nodup)
    (ht : nd.title = some existing.title)
    (hu : nd.url = some existing.url)
    (hc : nd.content = existing.content)
    (hcm : nd.content_markdown = existing.content_markdown)
    (hch : nd.content_html = existing.content_html)
    (ha : nd.author = existing.author)
    (hp : nd.published_at = existing.published_at)
    (hi : nd.image_url = existing.image_url)
    (hm : nd.article_metadata = some existing.article_metadata)
    (hw : nd.website_id = some existing.website_id)
    (hact : nd.active = some existing.active) :
    merge_article_data now existing nd =
      { title := existing.title, url := existing.url, content := existing.content
      , content_markdown := existing.content_markdown
      , content_html := existing.content_html, author := existing.author
      , published_at := existing.published_at, image_url := existing.image_url
      , website_id := existing.website_id
      , article_metadata := existing.article_metadata, active := existing.active
      , last_checked_at := now, update_count := existing.update_count + 1
      , categories := match nd.categories with
          | some l => if !l.isEmpty then some l else none
          | none => none } := by
  unfold merge_article_data
  rw [ht, hu, hc, hcm, hch, ha, hp, hi, hm, hw, hact]
  rw [overlayStr_self, overlayStr_self, overlayS_self, overlayS_self, overlayS_self,
    overlayS_self, overlayS_self, overlayS_self]
  have hmd : (if !existing.article_metadata.isEmpty then
      existing.article_metadata.foldl (fun acc kv => dictInsert acc kv.1 kv.2)
        existing.article_metadata
    else existing.article_metadata) = existing.article_metadata := by
    split
    · exact foldl_dictInsert_self existing.article_metadata hnodup
        existing.article_metadata (fun kv hm2 => hm2)
    · rfl
  simp only [hmd]
  congr 1
  · split <;> rfl
  · split <;> rfl

/-- A nonempty title shorter than the configured minimum always yields
the too-short issue and at least the 10-point penalty. -/
theorem validate_title_short (cfg : VConfig) (title : String)
    (h1 : title ≠ "") (h2 : title.length < cfg.min_title_length) :
    ("Title is too short (" ++ toString title.length ++ " chars, minimum " ++
      toString cfg.min_title_length ++ ")") ∈ (validate_title cfg title).issues ∧
    10 ≤ (validate_title cfg title).penalty := by
  have hb : (title == "") = false := by simpa using h1
  unfold validate_title
  simp only [hb, Bool.false_eq_true, if_false]
  constructor
  · simp [h2]
  · simp only [h2, if_true, if_pos h2]
    have l1 : (0:ℚ) ≤ (if title.length > cfg.max_title_length then (5:ℚ) else 0) := by
      split <;> norm_num
    have l2 : (0:ℚ) ≤ (if (cfg.clickbait_patterns.filter
        (fun p => hasSub p (toLowerStr title))).length > 0 then
        min 20 ((cfg.clickbait_patterns.filter
          (fun p => hasSub p (toLowerStr title))).length * 5 : ℚ) else 0) := by
      split
      · exact le_min (by norm_num) (by positivity)
      · norm_num
    have l3 : (0:ℚ) ≤ (if (pyIsUpper title && decide (title.length > 10)) = true
        then (10:ℚ) else 0) := by split <;> norm_num
    have l4 : (0:ℚ) ≤ (if (decide ((title.toList.filter (fun c => c == '!')).length > 1) ||
        decide ((title.toList.filter (fun c => c == '?')).length > 2)) = true
        then (5:ℚ) else 0) := by split <;> norm_num
    linarith

/-- The total wait of a rate-limit step is nonnegative when the drawn
jitter is. -/
theorem wait_nonneg (limit : Nat) (j now : ℚ) (hist : List ℚ) (hj : 0 ≤ j) :
    0 ≤ (wait_for_rate_limit limit j now hist).1 := by
  unfold wait_for_rate_limit
  simp only []
  split
  · split
    · split <;> linarith
    · norm_num
  · norm_num

/-! ## Claim theorems -/

/-- C1: parse_datetime does not keep an absent date distinct from
parsed dates: on input `None` (exactly what the fallback extractor
passes at enhanced_article_extractor.py line 271) it returns the
current UTC time as an ISO string, byte-identical to the output for a
genuinely parsed date carrying that same timestamp, even though the
spec and the function's own docstring require missing/unparsable dates
to stay distinguishable. -/
theorem parse_datetime_substitutes_now_for_missing :
    parse_datetime ⟨2025, 3, 14, 9, 26, 53, 0, some 0⟩ PyDateValue.noneV =
      "2025-03-14T09:26:53+00:00" ∧
    parse_datetime ⟨2025, 3, 14, 9, 26, 53, 0, some 0⟩ PyDateValue.noneV =
      parse_datetime ⟨2025, 3, 14, 9, 26, 53, 0, some 0⟩
        (PyDateValue.strV "2025-03-14T09:26:53+00:00") := by
  exact ⟨by decide, by decide⟩

/-- C2 (counterexample): on a fresh draft identical to the stored
record field by field, checked 100 hours ago with a 24-hour minimum
interval and no force flag, should_update_article reports an update
with reason "New categories available" merely because the draft carries
a (unchanged) categories list — the claim's `(false, ["no significant
changes"])` fails. -/
theorem unchanged_categories_trigger_update :
    should_update_article ratioEq 100 artIdent ndIdent false 24 =
      (true, ["New categories available"]) := by
  norm_num [should_update_article, has_significant_content_changes, has_metadata_changes,
    artIdent, ndIdent, ratioEq, pySplitParas, splitParasAux, lastIdxNewline, lookupMeta,
    truthyS]
  decide

/-- C2 (amended): with the draft additionally carrying no non-empty
categories entry (and the unchanged content judged at least 0.9 similar
to itself by the difflib collaborator, as it is for ordinary text),
should_update_article on an identical draft checked longer ago than the
minimum interval returns false with the single reason "No significant
changes detected". -/
theorem should_update_no_changes_without_categories
    (ratio : String → String → ℚ) (now t interval : ℚ)
    (existing : Article) (nd : NewData)
    (hnodup : (existing.article_metadata.map Prod.fst).Nodup)
    (hlast : existing.last_checked_at = some t)
    (hold : ¬ now - t < interval)
    (htitle : nd.title = some existing.title)
    (hcont : nd.content = existing.content)
    (hauth : nd.author = existing.author)
    (himg : nd.image_url = existing.image_url)
    (hpub : nd.published_at = existing.published_at)
    (hmeta : nd.article_metadata = some existing.article_metadata)
    (hcat : nd.categories = none ∨ nd.categories = some [])
    (hr : ¬ ratio (existing.content.getD "") (existing.content.getD "") < 9 / 10) :
    should_update_article ratio now existing nd false interval =
      (false, ["No significant changes detected"]) := by
  unfold should_update_article
  rw [hlast]
  simp only [decide_eq_false hold, Bool.false_eq_true, if_false]
  rw [hscc_self ratio existing nd hcont hr, hmc_self existing nd hnodup hmeta]
  rcases hcat with hc0 | hc0 <;>
    simp [hc0, himg, hauth, hpub]

/-- Witness for the amended C2 theorem at a concrete article and
draft. -/
theorem should_update_no_changes_witness :
    (¬ (100:ℚ) - 0 < 24) ∧
    should_update_article ratioEq 100 artIdent ndIdentNoCat false 24 =
      (false, ["No significant changes detected"]) := by
  constructor
  · norm_num
  · exact should_update_no_changes_without_categories ratioEq 100 0 24 artIdent ndIdentNoCat
      (by decide) rfl (by norm_num) rfl rfl rfl rfl rfl rfl (Or.inl rfl)
      (by norm_num [ratioEq, artIdent])

/-- C3: discover_urls does not return the best-effort union when a
sub-discovery's retries are exhausted: the rate limiter then yields
`None`, and `all_urls.update(None)` raises a TypeError that escapes
discover_urls (which has no handler), instead of the deduplicated union
of the successful sub-discoveries — here the six sitemap, six RSS and
all category probes all succeeded. -/
theorem discover_urls_raises_on_exhausted_retries :
    discover_urls cbEnv "https://example.com" =
      Except.error "TypeError: NoneType object is not iterable" := by
  rfl

/-- C4 (counterexample): a same-domain URL whose path contains the
date segment /2023/01/02/ is nevertheless rejected, because its path
also matches the exclusion pattern ".jpg" — the claim's unconditional
acceptance fails. -/
theorem date_url_with_excluded_extension_rejected :
    is_valid_article_url "https://example.com/2023/01/02/photo.jpg"
      "https://example.com" = false := by
  decide

/-- C4 (amended): every same-domain URL whose path contains a
/YYYY/MM/DD/ date segment and matches none of the exclusion patterns is
accepted by is_valid_article_url. -/
theorem date_url_accepted_unless_excluded (url base_url : String)
    (hdom : (urlparse url).netloc = (urlparse base_url).netloc)
    (hex : excludedPatterns.any (fun p => hasSub p (toLowerStr (urlparse url).path)) = false)
    (hdate : datePatterns.any (fun pat => rsearchS pat (urlparse url).path) = true) :
    is_valid_article_url url base_url = true := by
  have hne : (urlparse url).path ≠ "" := by
    intro h; rw [h] at hdate; exact absurd hdate (by decide)
  have hnr : (urlparse url).path ≠ "/" := by
    intro h; rw [h] at hdate; exact absurd hdate (by decide)
  unfold is_valid_article_url
  simp only [hdom, bne_self_eq_false, hex, hdate, beq_iff_eq, hne, hnr]
  simp [hne, hnr]

/-- Witness for the amended C4 theorem at a concrete dated article
URL. -/
theorem date_url_accepted_witness :
    (urlparse "https://example.com/2023/01/02/a-big-headline").netloc =
      (urlparse "https://example.com").netloc ∧
    is_valid_article_url "https://example.com/2023/01/02/a-big-headline"
      "https://example.com" = true := by
  exact ⟨by decide,
    date_url_accepted_unless_excluded "https://example.com/2023/01/02/a-big-headline"
      "https://example.com" (by decide) (by decide) (by decide)⟩

/-- C5 (counterexample): a /tag/ path is not in the code's exclusion
list and is accepted through the slug rule, contradicting the claim
that tag paths are rejected. -/
theorem tag_path_url_accepted :
    is_valid_article_url "https://example.com/tag/breaking-news-today"
      "https://example.com" = true := by
  decide

/-- C5 (amended): every URL whose lowercased path contains one of the
code's actual exclusion patterns (wp-content, wp-includes, wp-admin,
feed, comments, login, register, logout, admin, wp-json directories and
the xml/pdf/jpg/png/gif/css/js extensions) is rejected by
is_valid_article_url, regardless of any accepting pattern the path also
matches; tag, category, pagination and search paths are not in that
generic exclusion list. -/
theorem excluded_pattern_url_rejected (url base_url : String)
    (hhit : excludedPatterns.any (fun p => hasSub p (toLowerStr (urlparse url).path)) = true) :
    is_valid_article_url url base_url = false := by
  unfold is_valid_article_url
  simp [hhit]

/-- Witness for the amended C5 theorem at a concrete feed URL whose
path also matches the date-segment accepting pattern. -/
theorem excluded_pattern_url_rejected_witness :
    excludedPatterns.any (fun p =>
      hasSub p (toLowerStr (urlparse "https://example.com/feed/2023/01/02/").path)) = true ∧
    is_valid_article_url "https://example.com/feed/2023/01/02/"
      "https://example.com" = false := by
  exact ⟨by decide,
    excluded_pattern_url_rejected "https://example.com/feed/2023/01/02/"
      "https://example.com" (by decide)⟩

/-- C6 (counterexample): the repository operations carry no status
guard, so start_job on a completed job moves it back to running — the
terminal states are not preserved under arbitrary call sequences. -/
theorem start_after_complete_regresses :
    (complete_job 1 5 3 create_job).status = "completed" ∧
    (start_job 2 (complete_job 1 5 3 create_job)).status = "running" ∧
    (start_job 2 (complete_job 1 5 3 create_job)).status ≠ "completed" := by
  exact ⟨rfl, rfl, by decide⟩

/-- C6 (amended): each job operation unconditionally writes its target
status and fields — create yields pending, start sets running plus
start_time, complete sets completed plus end_time and the final counts,
fail sets failed plus end_time and the error message, from any current
state (in particular fail works from pending or running) — but the
repository never checks the current status, so the pending → running →
completed/failed forward machine holds only for call sequences issued
in that order, and a terminal job is moved back to running by a later
start_job. -/
theorem job_operations_set_fields_unconditionally
    (j : Job) (now : ℚ) (found scraped : Int) (msg : String) :
    create_job.status = "pending" ∧
    (start_job now j).status = "running" ∧
    (start_job now j).start_time = some now ∧
    (complete_job now found scraped j).status = "completed" ∧
    (complete_job now found scraped j).end_time = some now ∧
    (complete_job now found scraped j).articles_found = some found ∧
    (complete_job now found scraped j).articles_scraped = some scraped ∧
    (fail_job now msg j).status = "failed" ∧
    (fail_job now msg j).end_time = some now ∧
    (fail_job now msg j).error_message = some msg ∧
    (start_job now (fail_job now msg j)).status = "running" := by
  exact ⟨rfl, rfl, rfl, rfl, rfl, rfl, rfl, rfl, rfl, rfl, rfl⟩

/-- C7: merge_article_data is idempotent on the content fields when the
fresh draft is identical to the stored record: a second merge of the
same draft into the once-merged record leaves title, url, content,
content_markdown, content_html, author, published_at, image_url and the
deep-merged metadata unchanged, while each call stamps last_checked_at
with its clock value and increments update_count by exactly one. -/
theorem merge_idempotent_on_identical (now1 now2 : ℚ) (existing : Article) (nd : NewData)
    (hnodup : (existing.article_metadata.map Prod.fst).Nodup)
    (ht : nd.title = some existing.title)
    (hu : nd.url = some existing.url)
    (hc : nd.content = existing.content)
    (hcm : nd.content_markdown = existing.content_markdown)
    (hch : nd.content_html = existing.content_html)
    (ha : nd.author = existing.author)
    (hp : nd.published_at = existing.published_at)
    (hi : nd.image_url = existing.image_url)
    (hm : nd.article_metadata = some existing.article_metadata)
    (hw : nd.website_id = some existing.website_id)
    (hact : nd.active = some existing.active) :
    (merge_article_data now2 (mergedToArticle (merge_article_data now1 existing nd)) nd).title
        = (merge_article_data now1 existing nd).title ∧
    (merge_article_data now2 (mergedToArticle (merge_article_data now1 existing nd)) nd).url
        = (merge_article_data now1 existing nd).url ∧
    (merge_article_data now2 (mergedToArticle (merge_article_data now1 existing nd)) nd).content
        = (merge_article_data now1 existing nd).content ∧
    (merge_article_data now2 (mergedToArticle (merge_article_data now1 existing nd)) nd).content_markdown
        = (merge_article_data now1 existing nd).content_markdown ∧
    (merge_article_data now2 (mergedToArticle (merge_article_data now1 existing nd)) nd).content_html
        = (merge_article_data now1 existing nd).content_html ∧
    (merge_article_data now2 (mergedToArticle (merge_article_data now1 existing nd)) nd).author
        = (merge_article_data now1 existing nd).author ∧
    (merge_article_data now2 (mergedToArticle (merge_article_data now1 existing nd)) nd).published_at
        = (merge_article_data now1 existing nd).published_at ∧
    (merge_article_data now2 (mergedToArticle (merge_article_data now1 existing nd)) nd).image_url
        = (merge_article_data now1 existing nd).image_url ∧
    (merge_article_data now2 (mergedToArticle (merge_article_data now1 existing nd)) nd).article_metadata
        = (merge_article_data now1 existing nd).article_metadata ∧
    (merge_article_data now1 existing nd).last_checked_at = now1 ∧
    (merge_article_data now2 (mergedToArticle (merge_article_data now1 existing nd)) nd).last_checked_at = now2 ∧
    (merge_article_data now1 existing nd).update_count = existing.update_count + 1 ∧
    (merge_article_data now2 (mergedToArticle (merge_article_data now1 existing nd)) nd).update_count
        = (mergedToArticle (merge_article_data now1 existing nd)).update_count + 1 := by
  have e1 := merge_fields_self now1 existing nd hnodup ht hu hc hcm hch ha hp hi hm hw hact
  have ea2 : mergedToArticle (merge_article_data now1 existing nd) =
      { existing with
        last_checked_at := some now1,
        update_count := existing.update_count + 1 } := by
    rw [e1]; rfl
  have e2 := merge_fields_self now2 (mergedToArticle (merge_article_data now1 existing nd)) nd
    (by rw [ea2]; exact hnodup)
    (by rw [ea2]; exact ht) (by rw [ea2]; exact hu) (by rw [ea2]; exact hc)
    (by rw [ea2]; exact hcm) (by rw [ea2]; exact hch) (by rw [ea2]; exact ha)
    (by rw [ea2]; exact hp) (by rw [ea2]; exact hi) (by rw [ea2]; exact hm)
    (by rw [ea2]; exact hw) (by rw [ea2]; exact hact)
  rw [e2, ea2, e1]
  simp

/-- Witness for the C7 theorem at a concrete article and identical
draft, extracting the update-counter increment of the first merge. -/
theorem merge_idempotent_witness :
    (merge_article_data 5 artIdent ndIdent).update_count = artIdent.update_count + 1 := by
  exact (merge_idempotent_on_identical 5 7 artIdent ndIdent (by decide)
    rfl rfl rfl rfl rfl rfl rfl rfl rfl rfl rfl).2.2.2.2.2.2.2.2.2.2.2.1

/-- C8: with validation enabled the returned quality score always lies
between 0 and 100 inclusive (it does when disabled too), and a draft
whose title has exactly 5 characters under `min_title_length = 10`
yields the issue "Title is too short (5 chars, minimum 10)" and a
title sub-score of at most 90, a nonzero penalty. -/
theorem validate_article_score_bounds_and_title (cfg : VConfig) (now : ℚ) (d : Draft) :
    (0 ≤ (validate_article cfg now d).score ∧ (validate_article cfg now d).score ≤ 100) ∧
    (cfg.enabled = true → cfg.min_title_length = 10 → d.title.length = 5 →
      "Title is too short (5 chars, minimum 10)" ∈ (validate_article cfg now d).issues ∧
      (validate_article cfg now d).title_score ≤ 90) := by
  constructor
  · unfold validate_article
    cases hE : cfg.enabled
    · simp [hE]
    · simp only [hE, Bool.not_true, Bool.false_eq_true, if_false]
      refine ⟨le_max_left 0 _, max_le (by norm_num) (min_le_left _ _)⟩
  · intro hen hmtl hlen
    have hne : d.title ≠ "" := by
      intro h0
      rw [h0] at hlen
      simp at hlen
    have hlt : d.title.length < cfg.min_title_length := by rw [hmtl, hlen]; norm_num
    have hsub := validate_title_short cfg d.title hne hlt
    rw [hlen, hmtl] at hsub
    have hmsg : ("Title is too short (" ++ toString (5:ℕ) ++ " chars, minimum " ++
        toString (10:ℕ) ++ ")") = "Title is too short (5 chars, minimum 10)" := by rfl
    rw [hmsg] at hsub
    unfold validate_article
    simp only [hen, Bool.not_true, Bool.false_eq_true, if_false]
    refine ⟨?_, ?_⟩
    · simp [List.mem_append, hsub.1]
    · have h2 := hsub.2
      linarith

/-- Witness for the C8 theorem at a concrete configuration and a draft
whose title is the 5-character string "Short". -/
theorem validate_article_title_witness :
    "Title is too short (5 chars, minimum 10)" ∈
      (validate_article vcfgW 0 draftShortTitle).issues := by
  exact ((validate_article_score_bounds_and_title vcfgW 0 draftShortTitle).2
    rfl rfl (by decide)).1

/-- C9: with a per-domain limit of 2 requests per minute, three
successive calls — the jitter drawn for each being nonnegative, as
`random.uniform(0, jitter * wait)` guarantees — leave the third call
issuing its request no earlier than 60 seconds after the first
request's recorded timestamp. -/
theorem third_call_waits_full_window (t1 t2 t3 j1 j2 j3 : ℚ)
    (h12 : t1 ≤ t2) (h23 : t2 ≤ t3)
    (hj1 : 0 ≤ j1) (hj2 : 0 ≤ j2) (hj3 : 0 ≤ j3) :
    t1 + 60 ≤ t3 + (wait_for_rate_limit 2 j3 t3
      (wait_for_rate_limit 2 j2 t2 (wait_for_rate_limit 2 j1 t1 []).2).2).1 := by
  have e1 : wait_for_rate_limit 2 j1 t1 [] = (0, [t1]) := by
    norm_num [wait_for_rate_limit, cleanHistory]
  rw [e1]
  by_cases hA : t2 - t1 < 60
  · have e2 : wait_for_rate_limit 2 j2 t2 [t1] = (0, [t1, t2]) := by
      norm_num [wait_for_rate_limit, cleanHistory, hA]
    rw [e2]
    by_cases hB : t3 - t1 < 60
    · have hB2 : t3 - t2 < 60 := by linarith
      have e3 : (wait_for_rate_limit 2 j3 t3 [t1, t2]).1 = 60 - (t3 - t1) + j3 := by
        have hw : (0:ℚ) < 60 - (t3 - t1) := by linarith
        norm_num [wait_for_rate_limit, cleanHistory, hB, hB2, hw]
      rw [e3]
      linarith
    · have e3 : (wait_for_rate_limit 2 j3 t3 [t1, t2]).1 = 0 := by
        by_cases hB2 : t3 - t2 < 60 <;>
          norm_num [wait_for_rate_limit, cleanHistory, hB, hB2]
      rw [e3]
      linarith
  · have e2 : wait_for_rate_limit 2 j2 t2 [t1] = (0, [t2]) := by
      norm_num [wait_for_rate_limit, cleanHistory, hA]
    rw [e2]
    have hw3 := wait_nonneg 2 j3 t3 [t2] hj3
    linarith

/-- Witness for the C9 theorem with all three calls at time 0 and zero
jitter. -/
theorem third_call_waits_witness :
    (0:ℚ) ≤ 0 ∧
    (0:ℚ) + 60 ≤ 0 + (wait_for_rate_limit 2 0 0
      (wait_for_rate_limit 2 0 0 (wait_for_rate_limit 2 0 0 []).2).2).1 := by
  exact ⟨le_refl 0,
    third_call_waits_full_window 0 0 0 0 0 0 (le_refl 0) (le_refl 0)
      (le_refl 0) (le_refl 0) (le_refl 0)⟩

/-- C10: a fresh draft whose content entry is absent or empty is never
reported as a significant content change, whatever the stored content
and however the similarity collaborator behaves, so shrinking to empty
content cannot by itself trigger an update. -/
theorem empty_fresh_content_not_significant (ratio : String → String → ℚ)
    (existing : Article) (nd : NewData)
    (h : nd.content = none ∨ nd.content = some "") :
    has_significant_content_changes ratio existing nd = false := by
  unfold has_significant_content_changes
  rcases h with h | h <;> rw [h] <;> simp

/-- Witness for the C10 theorem at a concrete article and a draft
whose extraction came back with empty content. -/
theorem empty_fresh_content_witness :
    (ndEmptyContent.content = none ∨ ndEmptyContent.content = some "") ∧
    has_significant_content_changes ratioEq artIdent ndEmptyContent = false := by
  exact ⟨Or.inr rfl,
    empty_fresh_content_not_significant ratioEq artIdent ndEmptyContent (Or.inr rfl)⟩

end NNH
